import Mathlib

/-!
Verification of the MagnePlane component/solve core against its source.

Python floats are modelled as real numbers (`ℝ`); division is Lean's total
division on `ℝ`. Each OpenMDAO component's `solve_nonlinear(params, unknowns,
resids)` is embedded as a function from a parameter record and the current
unknowns store to the updated unknowns store, mirroring the source's in-place
dictionary writes by explicit state passing.
-/

namespace Thrust

/-- Parameters of `Thrust` (LIM.py `__init__` `add_param` calls, in source
order), with the source's default values realised by `defaultParams`. -/
structure Params where
  R2 : ℝ
  R1 : ℝ
  P1 : ℝ
  X_m : ℝ
  m : ℝ
  V1 : ℝ
  L_s : ℝ
  V_s : ℝ
  V_r : ℝ
  f : ℝ
  L : ℝ
  c_time : ℝ
  mass : ℝ

/-- Outputs of `Thrust` (LIM.py `add_output` calls, in source order). -/
structure Unknowns where
  phi : ℝ
  slip_ratio : ℝ
  reactance_of_inductor : ℝ
  omega : ℝ
  thrust : ℝ
  a : ℝ

/-- Default parameter values from the `add_param` calls in LIM.py. -/
noncomputable def defaultParams : Params :=
  { R2 := 0.082, R1 := 7.6e-7, P1 := 180000, X_m := 0.9e-6, m := 3.0,
    V1 := 450.0, L_s := 0.6, V_s := 16.31, V_r := 15.5, f := 60.0,
    L := 0.0017, c_time := 2.0, mass := 15000 }

/-- `Thrust.phase_angle_calc`: `phi = arctan((2*pi*f*L)/R1)`. -/
noncomputable def phase_angle_calc (f L R1 : ℝ) : ℝ :=
  Real.arctan ((2 * Real.pi * f * L) / R1)

/-- `Thrust.slip_ratio`: `slip = (V_s - V_r) / V_s`. -/
noncomputable def slip_ratio (V_s V_r : ℝ) : ℝ :=
  (V_s - V_r) / V_s

/-- `Thrust.reactance_of_inductor`: `X_l = 2*pi*f*L`. -/
noncomputable def reactance_of_inductor (f L : ℝ) : ℝ :=
  2 * Real.pi * f * L

/-- `Thrust.omega`: `w = 2*pi*f*L`. -/
noncomputable def omega (f L : ℝ) : ℝ :=
  2 * Real.pi * f * L

/-- `Thrust.acceleration`: `a = (P1 / (2*mass*c_time))**0.5`. -/
noncomputable def acceleration (P1 c_time mass : ℝ) : ℝ :=
  Real.sqrt (P1 / (2 * mass * c_time))

/-- `Thrust.solve_nonlinear`: sequential writes into the unknowns store,
mirroring the source's write-then-read of `unknowns['phi']` and
`unknowns['slip_ratio']`. -/
noncomputable def solve_nonlinear (p : Params) (u : Unknowns) : Unknowns :=
  let u1 := { u with phi := phase_angle_calc p.f p.L p.R1 }
  let phi := u1.phi
  let u2 := { u1 with slip_ratio := slip_ratio p.V_s p.V_r }
  let S := u2.slip_ratio
  let u3 := { u2 with reactance_of_inductor := reactance_of_inductor p.f p.L }
  let u4 := { u3 with omega := omega p.f p.L }
  let u5 := { u4 with thrust :=
    (p.P1 ^ 2 * p.R2 * p.X_m ^ 2 * S * (1 - S)) /
      (p.m * p.V1 ^ 2 * Real.cos phi ^ 2 * (p.R2 ^ 2 + S ^ 2 * p.X_m ^ 2)) }
  { u5 with a := acceleration p.P1 p.c_time p.mass }

end Thrust

namespace BreakPointDrag

/-- Parameters of `BreakPointDrag` (breakpoint_levitation.py `add_param`
calls, in source order). -/
structure Params where
  m_pod : ℝ
  b_res : ℝ
  num_mag_hal : ℝ
  mag_thk : ℝ
  l_pod : ℝ
  gamma : ℝ
  w_mag : ℝ
  spacing : ℝ
  w_track : ℝ
  w_strip : ℝ
  num_sheets : ℝ
  delta_c : ℝ
  strip_c : ℝ
  rc : ℝ
  MU0 : ℝ
  vel_b : ℝ
  h_lev : ℝ
  g : ℝ

/-- Outputs of `BreakPointDrag` (`add_output` calls, in source order). -/
structure Unknowns where
  lam : ℝ
  track_ind : ℝ
  b0 : ℝ
  mag_area : ℝ
  omegab : ℝ
  fyu : ℝ
  fxu : ℝ
  ld_ratio : ℝ
  track_res : ℝ

/-- Default parameter values from the `add_param` calls. -/
noncomputable def defaultParams : Params :=
  { m_pod := 3000.0, b_res := 1.48, num_mag_hal := 4.0, mag_thk := 0.15,
    l_pod := 22.0, gamma := 1.0, w_mag := 3.0, spacing := 0.0,
    w_track := 3.0, w_strip := 0.005, num_sheets := 1.0, delta_c := 0.0005334,
    strip_c := 0.0105, rc := 1.713e-8, MU0 := 4.0 * Real.pi * 1e-7,
    vel_b := 23.0, h_lev := 0.01, g := 9.81 }

/-- `BreakPointDrag.solve_nonlinear`: the intermediate variables in source
order, the `if vel_b == 0` zero-override branch, and the nine output
writes. -/
noncomputable def solve_nonlinear (p : Params) (u : Unknowns) : Unknowns :=
  let track_res := p.rc * p.w_track / (p.delta_c * p.w_strip * p.num_sheets)
  let lam := p.num_mag_hal * p.mag_thk + p.spacing
  let b0 := p.b_res * (1 - Real.exp (-2 * Real.pi * p.mag_thk / lam)) *
    (Real.sin (Real.pi / p.num_mag_hal) / (Real.pi / p.num_mag_hal))
  let track_ind := p.MU0 * p.w_track / (4 * Real.pi * p.strip_c / lam)
  let mag_area := p.w_mag * p.l_pod * p.gamma
  if p.vel_b = 0 then
    { u with
      lam := lam
      b0 := b0
      track_ind := track_ind
      mag_area := mag_area
      omegab := 0
      fyu := 0
      fxu := 0
      ld_ratio := 0
      track_res := track_res }
  else
    let omegab := 2 * Real.pi * p.vel_b / lam
    let fyu := (b0 ^ 2 * p.w_mag / (4 * Real.pi * track_ind * p.strip_c / lam)) *
      (1 / (1 + (track_res / (omegab * track_ind)) ^ 2)) *
      Real.exp (-4 * Real.pi * p.h_lev / lam) * mag_area
    let fxu := (b0 ^ 2 * p.w_mag / (4 * Real.pi * track_ind * p.strip_c / lam)) *
      ((track_res / (omegab * track_ind)) /
        (1 + (track_res / (omegab * track_ind)) ^ 2)) *
      Real.exp (-4 * Real.pi * p.h_lev / lam) * mag_area
    let ld_ratio := fyu / fxu
    { u with
      lam := lam
      b0 := b0
      track_ind := track_ind
      mag_area := mag_area
      omegab := omegab
      fyu := fyu
      fxu := fxu
      ld_ratio := ld_ratio
      track_res := track_res }

end BreakPointDrag

namespace MagMass

/-- Parameters of `MagMass` (breakpoint_levitation.py `add_param` calls, in
source order). -/
structure Params where
  mag_thk : ℝ
  rho_mag : ℝ
  l_pod : ℝ
  gamma : ℝ
  cost_per_kg : ℝ
  w_mag : ℝ

/-- Outputs of `MagMass` (`add_output` calls, in source order). -/
structure Unknowns where
  mag_area : ℝ
  m_mag : ℝ
  cost : ℝ

/-- Default parameter values from the `add_param` calls. -/
noncomputable def defaultParams : Params :=
  { mag_thk := 0.15, rho_mag := 7500.0, l_pod := 22.0, gamma := 1.0,
    cost_per_kg := 44.0, w_mag := 3.0 }

/-- `MagMass.solve_nonlinear`: `mag_area = w_mag*l_pod*gamma`,
`m_mag = rho_mag*mag_area*mag_thk`, `cost = m_mag*cost_per_kg`. -/
noncomputable def solve_nonlinear (p : Params) (u : Unknowns) : Unknowns :=
  let mag_area := p.w_mag * p.l_pod * p.gamma
  let m_mag := p.rho_mag * mag_area * p.mag_thk
  let cost := m_mag * p.cost_per_kg
  { u with
    mag_area := mag_area
    m_mag := m_mag
    cost := cost }

end MagMass

namespace CompressorMass

/-- Parameters of `CompressorMass` (compressor_mass.py `add_param` calls, in
source order). -/
structure Params where
  comp_eff : ℝ
  mass_flow : ℝ
  h_in : ℝ
  h_out : ℝ
  comp_inletArea : ℝ

/-- The single output of `CompressorMass`. -/
structure Unknowns where
  comp_mass : ℝ

/-- Default parameter values from the `add_param` calls. -/
noncomputable def defaultParams : Params :=
  { comp_eff := 91, mass_flow := 317.52, h_in := 0, h_out := 486.13,
    comp_inletArea := 1.287 }

/-- `CompressorMass.solve_nonlinear`: the Michael Tong correlation
`comp_mass = 299.2167*comp_inletArea
  + 0.007418*((mass_flow*(h_out-h_in))/(comp_eff/100)) + 37.15`. -/
noncomputable def solve_nonlinear (p : Params) (u : Unknowns) : Unknowns :=
  { u with comp_mass := 299.2167 * p.comp_inletArea + 0.007418 *
      ((p.mass_flow * (p.h_out - p.h_in)) / (p.comp_eff / 100)) + 37.15 }

end CompressorMass

/-- All-zero initial unknowns store for `Thrust` (the `add_output` defaults
are all `0.0`). -/
def thrustU0 : Thrust.Unknowns :=
  { phi := 0, slip_ratio := 0, reactance_of_inductor := 0, omega := 0,
    thrust := 0, a := 0 }

/-- All-zero initial unknowns store for `BreakPointDrag` (the `add_output`
defaults are all `0.0`). -/
def dragU0 : BreakPointDrag.Unknowns :=
  { lam := 0, track_ind := 0, b0 := 0, mag_area := 0, omegab := 0, fyu := 0,
    fxu := 0, ld_ratio := 0, track_res := 0 }

/-- All-zero initial unknowns store for `MagMass`. -/
def magMassU0 : MagMass.Unknowns := { mag_area := 0, m_mag := 0, cost := 0 }

/-- Initial unknowns store for `CompressorMass` (`add_output` default
`0.1`). -/
noncomputable def compressorU0 : CompressorMass.Unknowns := { comp_mass := 0.1 }

/-- Modelled from the spec: `NumericDomainError` (spec §7), the solve-time
failure a component may raise on a runtime-zero denominator. No such error
type or `raise` statement exists anywhere under `src/`. -/
inductive NumericDomainError where
  | divisionByZero
deriving DecidableEq

/-- `true` iff an exception-aware solve completed without raising. -/
def resultOk {ε α : Type} (r : Except ε α) : Bool :=
  match r with
  | .ok _ => true
  | .error _ => false

/-- Exception-aware reading of `Thrust.solve_nonlinear`: the source body
contains no guard and no `raise` statement, so every execution path completes
and the translation wraps the computed unknowns in `ok`. -/
noncomputable def Thrust.solveResult (p : Thrust.Params) (u : Thrust.Unknowns) :
    Except NumericDomainError Thrust.Unknowns :=
  Except.ok (Thrust.solve_nonlinear p u)

/-- Exception-aware reading of `BreakPointDrag.solve_nonlinear`: the source
body contains no guard on the `track_res` division and no `raise` statement,
so every execution path completes and the translation wraps the computed
unknowns in `ok`. -/
noncomputable def BreakPointDrag.solveResult (p : BreakPointDrag.Params)
    (u : BreakPointDrag.Unknowns) :
    Except NumericDomainError BreakPointDrag.Unknowns :=
  Except.ok (BreakPointDrag.solve_nonlinear p u)

/-!
Group composition model. The wiring data below (children, promoted names,
connections of `LevGroup`) is read off levitation_group.py. The resolution
machinery itself (dependency edges, topological evaluation order, promotion
namespace slots) lives in the external framework, not under `src/`, and is
modelled from the spec (§3 Promotion, §4.3 resolution algorithm).
-/

/-- A child component of a group: its name, declared parameter and output
names, and the names it promotes to the group level. -/
structure Child where
  name : String
  paramNames : List String
  outputNames : List String
  promotes : List String
deriving DecidableEq

/-- A point-to-point connection `src component.output → dst
component.parameter`. -/
structure Conn where
  srcComp : String
  srcVar : String
  dstComp : String
  dstVar : String
deriving DecidableEq

/-- The `Drag` child of `LevGroup`: `BreakPointDrag()` with
`promotes=['m_pod', 'w_track', 'l_pod', 'w_mag', 'fyu']`; parameter and
output names from breakpoint_levitation.py. -/
def dragChild : Child :=
  { name := "Drag"
    paramNames := ["m_pod", "b_res", "num_mag_hal", "mag_thk", "l_pod",
      "gamma", "w_mag", "spacing", "w_track", "w_strip", "num_sheets",
      "delta_c", "strip_c", "rc", "MU0", "vel_b", "h_lev", "g"]
    outputNames := ["lam", "track_ind", "b0", "mag_area", "omegab", "fyu",
      "fxu", "ld_ratio", "track_res"]
    promotes := ["m_pod", "w_track", "l_pod", "w_mag", "fyu"] }

/-- The `Mass` child of `LevGroup`: `MagMass()` with
`promotes=['l_pod', 'w_mag', 'm_mag', 'cost']`. -/
def massChild : Child :=
  { name := "Mass"
    paramNames := ["mag_thk", "rho_mag", "l_pod", "gamma", "cost_per_kg",
      "w_mag"]
    outputNames := ["mag_area", "m_mag", "cost"]
    promotes := ["l_pod", "w_mag", "m_mag", "cost"] }

/-- Modelled from the spec: the `MDrag` child of `LevGroup` is `MagDrag()`
from magnetic_drag.py, which is not under `src/`. Its interface is
reconstructed from its use in levitation_group.py: `track_res`, `track_ind`,
`lam` receive connections (so they are parameters), `fyu` is promoted as a
parameter shared with `Drag`'s promoted output (spec §8 promotion aliasing),
and `mag_drag` is its promoted output. -/
def mdragChild : Child :=
  { name := "MDrag"
    paramNames := ["track_res", "track_ind", "lam", "fyu"]
    outputNames := ["mag_drag"]
    promotes := ["mag_drag", "fyu"] }

/-- The children of `LevGroup`, in `add` order. -/
def levChildren : List Child := [dragChild, massChild, mdragChild]

/-- The explicit connections declared in `LevGroup.__init__`. -/
def levConnections : List Conn :=
  [{ srcComp := "Drag", srcVar := "track_res", dstComp := "MDrag", dstVar := "track_res" },
   { srcComp := "Drag", srcVar := "track_ind", dstComp := "MDrag", dstVar := "track_ind" },
   { srcComp := "Drag", srcVar := "lam", dstComp := "MDrag", dstVar := "lam" }]

/-- Modelled from the spec (§4.3): each connection contributes a dependency
edge from the component owning its source to the component owning its
destination. -/
def connectionEdges (conns : List Conn) : List (String × String) :=
  conns.map fun c => (c.srcComp, c.dstComp)

/-- Modelled from the spec (§4.3): promoted names shared by an output of one
child and a parameter of another merge into one slot, contributing a
dependency edge from the output's owner to the parameter's owner. -/
def promotionEdges (children : List Child) : List (String × String) :=
  (children.map fun a =>
    (children.filter fun b => a.name ≠ b.name).filterMap fun b =>
      if a.promotes.any fun n =>
          a.outputNames.contains n && b.promotes.contains n &&
            b.paramNames.contains n
      then some (a.name, b.name) else none).flatten

/-- `true` iff `n` has no incoming dependency edge from a still-unplaced
component. -/
def noIncoming (edges : List (String × String)) (remaining : List String)
    (n : String) : Bool :=
  edges.all fun e => !(e.2 == n && remaining.contains e.1)

/-- Kahn-style topological sort, fuelled by the number of components;
modelled from the spec (§4.3, §4.4: setup caches a topological evaluation
order and fails on a cycle — here a cycle exhausts the candidates and yields
a truncated order). -/
def topoAux (edges : List (String × String)) : Nat → List String → List String
  | 0, _ => []
  | fuel + 1, remaining =>
    match remaining.filter (noIncoming edges remaining) with
    | [] => []
    | n :: _ => n :: topoAux edges fuel (remaining.erase n)

/-- Modelled from the spec (§4.4): the evaluation order cached at setup. -/
def evalOrder (children : List Child) (conns : List Conn) : List String :=
  topoAux (connectionEdges conns ++ promotionEdges children) children.length
    (children.map Child.name)

/-- The cached evaluation order of `LevGroup`. -/
def levOrder : List String := evalOrder levChildren levConnections

/-- Modelled from the spec (§3 Promotion): the resolved group-level name of a
child's local quantity — the promoted name itself when promoted, otherwise
the child-scoped dotted name. -/
def resolveName (c : Child) (localName : String) : String :=
  if c.promotes.contains localName then localName
  else c.name ++ "." ++ localName

/-- Modelled from the spec (§3, §6): the flattened resolved namespace is a
store from resolved names to values; writing updates one slot. -/
def setVar (store : String → ℝ) (n : String) (v : ℝ) : String → ℝ :=
  fun m => if m = n then v else store m

/-- Default `BreakPointDrag` parameters with the breakpoint velocity set to
zero. -/
noncomputable def dragPVelZero : BreakPointDrag.Params :=
  { BreakPointDrag.defaultParams with vel_b := 0 }

/-- Default `Thrust` parameters with the synchronous velocity set to zero, a
runtime-zero denominator for `slip_ratio`. -/
noncomputable def thrustVsZero : Thrust.Params :=
  { Thrust.defaultParams with V_s := 0 }

/-- Default `BreakPointDrag` parameters with a zero layer thickness, a
runtime-zero denominator for the `track_res` division. -/
noncomputable def dragDeltaZero : BreakPointDrag.Params :=
  { BreakPointDrag.defaultParams with delta_c := 0 }

/-- Default `Thrust` parameters with the rotor velocity equal to the
synchronous velocity. -/
noncomputable def thrustSlipZero : Thrust.Params :=
  { Thrust.defaultParams with V_r := 16.31 }

/-- C1: with `vel_b = 0` and any other parameter values,
`BreakPointDrag.solve_nonlinear` writes `omegab`, `fyu`, `fxu` and
`ld_ratio` all exactly `0`, forced by the `if vel_b == 0` branch rather than
computed from the general formulas. -/
theorem breakPointDrag_zero_velocity_override (p : BreakPointDrag.Params)
    (u : BreakPointDrag.Unknowns) (h : p.vel_b = 0) :
    (BreakPointDrag.solve_nonlinear p u).omegab = 0 ∧
    (BreakPointDrag.solve_nonlinear p u).fyu = 0 ∧
    (BreakPointDrag.solve_nonlinear p u).fxu = 0 ∧
    (BreakPointDrag.solve_nonlinear p u).ld_ratio = 0 := by
  simp [BreakPointDrag.solve_nonlinear, h]

/-- Witness for C1 at the default parameters with `vel_b := 0`. -/
theorem breakPointDrag_zero_velocity_override_witness :
    (BreakPointDrag.solve_nonlinear dragPVelZero dragU0).omegab = 0 ∧
    (BreakPointDrag.solve_nonlinear dragPVelZero dragU0).fyu = 0 ∧
    (BreakPointDrag.solve_nonlinear dragPVelZero dragU0).fxu = 0 ∧
    (BreakPointDrag.solve_nonlinear dragPVelZero dragU0).ld_ratio = 0 :=
  breakPointDrag_zero_velocity_override dragPVelZero dragU0 rfl

/-- C2 counterexample: at `mag_thk=0.15, w_mag=3, l_pod=22, gamma=1,
rho_mag=7500, cost_per_kg=44` (the defaults), `MagMass.solve_nonlinear`
writes `m_mag = 74250`, not the claimed `7425.0`. -/
theorem magMass_m_mag_counterexample :
    (MagMass.solve_nonlinear MagMass.defaultParams magMassU0).m_mag = 74250 ∧
    (MagMass.solve_nonlinear MagMass.defaultParams magMassU0).m_mag ≠ 7425 := by
  norm_num [MagMass.solve_nonlinear, MagMass.defaultParams, magMassU0]

/-- C2 amended: at the scenario parameters, `MagMass.solve_nonlinear` writes
`mag_area = 66`, `m_mag = 66*0.15*7500 = 74250` (the formula taken
literally) and `cost = m_mag*44`. -/
theorem magMass_scenario_literal :
    (MagMass.solve_nonlinear MagMass.defaultParams magMassU0).mag_area = 66 ∧
    (MagMass.solve_nonlinear MagMass.defaultParams magMassU0).m_mag = 74250 ∧
    (MagMass.solve_nonlinear MagMass.defaultParams magMassU0).cost =
      (MagMass.solve_nonlinear MagMass.defaultParams magMassU0).m_mag * 44 := by
  norm_num [MagMass.solve_nonlinear, MagMass.defaultParams, magMassU0]

/-- C3 counterexample: at a runtime-zero denominator outside the declared
zero-velocity case (`V_s = 0` for `Thrust`'s slip-ratio division, and
`delta_c = 0` for `BreakPointDrag`'s track-resistance division), solve does
not fail with `NumericDomainError`: it completes. -/
theorem no_numeric_domain_error_counterexample :
    thrustVsZero.V_s = 0 ∧
    resultOk (Thrust.solveResult thrustVsZero thrustU0) = true ∧
    dragDeltaZero.delta_c = 0 ∧
    resultOk (BreakPointDrag.solveResult dragDeltaZero dragU0) = true :=
  ⟨rfl, rfl, rfl, rfl⟩

/-- C3 amended: neither `Thrust.solve_nonlinear` nor
`BreakPointDrag.solve_nonlinear` ever raises `NumericDomainError`; the
divisions are unguarded and solve completes on every parameter assignment
(zero denominators included). -/
theorem solve_never_raises :
    (∀ (p : Thrust.Params) (u : Thrust.Unknowns),
      resultOk (Thrust.solveResult p u) = true) ∧
    (∀ (p : BreakPointDrag.Params) (u : BreakPointDrag.Unknowns),
      resultOk (BreakPointDrag.solveResult p u) = true) :=
  ⟨fun _ _ => rfl, fun _ _ => rfl⟩

/-- C4 counterexample: at the scenario parameters the compressor mass is not
approximately `1662.9` kg — it exceeds that figure by more than `17`. -/
theorem compressorMass_value_counterexample :
    (CompressorMass.solve_nonlinear CompressorMass.defaultParams
      compressorU0).comp_mass ≠ 1662.9 ∧
    17 < (CompressorMass.solve_nonlinear CompressorMass.defaultParams
      compressorU0).comp_mass - 1662.9 := by
  norm_num [CompressorMass.solve_nonlinear, CompressorMass.defaultParams,
    compressorU0]

/-- C4 amended: at `comp_eff=91, mass_flow=317.52, h_in=0, h_out=486.13,
comp_inletArea=1.287`, `CompressorMass.solve_nonlinear` writes `comp_mass`
exactly equal to `299.2167*1.287 + 0.007418*(317.52*486.13/0.91) + 37.15`,
which is approximately `1680.5` kg. -/
theorem compressorMass_scenario_formula :
    (CompressorMass.solve_nonlinear CompressorMass.defaultParams
      compressorU0).comp_mass =
      299.2167 * 1.287 + 0.007418 * (317.52 * 486.13 / 0.91) + 37.15 ∧
    1680.49 < (CompressorMass.solve_nonlinear CompressorMass.defaultParams
      compressorU0).comp_mass ∧
    (CompressorMass.solve_nonlinear CompressorMass.defaultParams
      compressorU0).comp_mass < 1680.51 := by
  norm_num [CompressorMass.solve_nonlinear, CompressorMass.defaultParams,
    compressorU0]

/-- C5: every embedded component's solve is a pure function of its
parameters — the written outputs do not depend on the incoming unknowns
store, and solving twice with the same parameters yields identical
outputs. -/
theorem solve_deterministic :
    (∀ (p : Thrust.Params) (u u' : Thrust.Unknowns),
      Thrust.solve_nonlinear p u = Thrust.solve_nonlinear p u') ∧
    (∀ (p : BreakPointDrag.Params) (u u' : BreakPointDrag.Unknowns),
      BreakPointDrag.solve_nonlinear p u = BreakPointDrag.solve_nonlinear p u') ∧
    (∀ (p : MagMass.Params) (u u' : MagMass.Unknowns),
      MagMass.solve_nonlinear p u = MagMass.solve_nonlinear p u') ∧
    (∀ (p : CompressorMass.Params) (u u' : CompressorMass.Unknowns),
      CompressorMass.solve_nonlinear p u = CompressorMass.solve_nonlinear p u') ∧
    (∀ (p : Thrust.Params) (u : Thrust.Unknowns),
      Thrust.solve_nonlinear p (Thrust.solve_nonlinear p u) =
        Thrust.solve_nonlinear p u) ∧
    (∀ (p : BreakPointDrag.Params) (u : BreakPointDrag.Unknowns),
      BreakPointDrag.solve_nonlinear p (BreakPointDrag.solve_nonlinear p u) =
        BreakPointDrag.solve_nonlinear p u) := by
  refine ⟨fun p u u' => rfl, fun p u u' => ?_, fun p u u' => rfl,
    fun p u u' => rfl, fun p u => rfl, fun p u => ?_⟩ <;>
    unfold BreakPointDrag.solve_nonlinear <;>
    by_cases h : p.vel_b = 0 <;> simp [h]

/-- C6: for every connection of `LevGroup`, the source's owning component
appears strictly before the destination's owning component in the cached
evaluation order `levOrder`. -/
theorem levGroup_topological_order :
    ∀ c ∈ levConnections,
      levOrder.indexOf c.srcComp < levOrder.indexOf c.dstComp ∧
      levOrder.indexOf c.dstComp < levOrder.length := by
  decide

/-- Witness for C6 at the `Drag.track_res → MDrag.track_res` connection. -/
theorem levGroup_topological_order_witness :
    ({ srcComp := "Drag", srcVar := "track_res", dstComp := "MDrag",
       dstVar := "track_res" } : Conn) ∈ levConnections ∧
    (levOrder.indexOf "Drag" < levOrder.indexOf "MDrag" ∧
      levOrder.indexOf "MDrag" < levOrder.length) :=
  ⟨by decide,
    levGroup_topological_order
      { srcComp := "Drag", srcVar := "track_res", dstComp := "MDrag",
        dstVar := "track_res" } (by decide)⟩

/-- C7: two children promoting the same local name share one namespace
slot — writing the value through one child's promoted name and reading
through the other's returns that value, for every value and store. -/
theorem promotion_aliasing (A B : Child) (n : String)
    (hA : n ∈ A.promotes) (hB : n ∈ B.promotes)
    (v : ℝ) (store : String → ℝ) :
    setVar store (resolveName A n) v (resolveName B n) = v := by
  simp [resolveName, setVar, hA, hB]

/-- Witness for C7: `Drag` and `MDrag` both promote `fyu` in `LevGroup`;
writing `1` through `Drag`'s slot and reading through `MDrag`'s returns
`1`. -/
theorem promotion_aliasing_witness :
    "fyu" ∈ dragChild.promotes ∧
    "fyu" ∈ mdragChild.promotes ∧
    setVar (fun _ => 0) (resolveName dragChild "fyu") 1
      (resolveName mdragChild "fyu") = 1 :=
  ⟨by decide, by decide,
    promotion_aliasing dragChild mdragChild "fyu" (by decide) (by decide) 1
      (fun _ => 0)⟩

/-- C8: `Thrust.reactance_of_inductor` and `Thrust.omega` are the same
function `2*pi*f*L`, and the corresponding outputs written by
`Thrust.solve_nonlinear` coincide. -/
theorem thrust_reactance_eq_omega :
    (∀ f L : ℝ, Thrust.reactance_of_inductor f L = Thrust.omega f L ∧
      Thrust.omega f L = 2 * Real.pi * f * L) ∧
    (∀ (p : Thrust.Params) (u : Thrust.Unknowns),
      (Thrust.solve_nonlinear p u).reactance_of_inductor =
        (Thrust.solve_nonlinear p u).omega ∧
      (Thrust.solve_nonlinear p u).omega = 2 * Real.pi * p.f * p.L) :=
  ⟨fun _ _ => ⟨rfl, rfl⟩, fun _ _ => ⟨rfl, rfl⟩⟩

/-- C9: when `V_r = V_s` with `V_s` nonzero, the slip ratio is `0` and
`Thrust.solve_nonlinear` writes `thrust = 0` (the thrust formula carries the
factor `S*(1-S)`). -/
theorem thrust_zero_slip (p : Thrust.Params) (u : Thrust.Unknowns)
    (h1 : p.V_r = p.V_s) (_h2 : p.V_s ≠ 0) :
    (Thrust.solve_nonlinear p u).thrust = 0 := by
  simp [Thrust.solve_nonlinear, Thrust.slip_ratio, h1]

/-- Witness for C9 at the default parameters with `V_r := 16.31 = V_s`. -/
theorem thrust_zero_slip_witness :
    (Thrust.solve_nonlinear thrustSlipZero thrustU0).thrust = 0 :=
  thrust_zero_slip thrustSlipZero thrustU0 rfl
    (by norm_num [thrustSlipZero, Thrust.defaultParams])

/-- C10: `BreakPointDrag` and `MagMass` compute the same `mag_area`
function: on any common assignment of `w_mag`, `l_pod` and `gamma` the two
solves write the same `mag_area`, equal to `w_mag*l_pod*gamma`. -/
theorem mag_area_agreement (pd : BreakPointDrag.Params) (pm : MagMass.Params)
    (u : BreakPointDrag.Unknowns) (v : MagMass.Unknowns)
    (h1 : pd.w_mag = pm.w_mag) (h2 : pd.l_pod = pm.l_pod)
    (h3 : pd.gamma = pm.gamma) :
    (BreakPointDrag.solve_nonlinear pd u).mag_area =
      (MagMass.solve_nonlinear pm v).mag_area ∧
    (MagMass.solve_nonlinear pm v).mag_area =
      pm.w_mag * pm.l_pod * pm.gamma := by
  constructor
  · by_cases h : pd.vel_b = 0 <;>
      simp [BreakPointDrag.solve_nonlinear, MagMass.solve_nonlinear, h, h1,
        h2, h3]
  · rfl

/-- Witness for C10 at the shared default values `w_mag=3, l_pod=22,
gamma=1`. -/
theorem mag_area_agreement_witness :
    (BreakPointDrag.solve_nonlinear BreakPointDrag.defaultParams
      dragU0).mag_area =
      (MagMass.solve_nonlinear MagMass.defaultParams magMassU0).mag_area ∧
    (MagMass.solve_nonlinear MagMass.defaultParams magMassU0).mag_area =
      MagMass.defaultParams.w_mag * MagMass.defaultParams.l_pod *
        MagMass.defaultParams.gamma :=
  mag_area_agreement BreakPointDrag.defaultParams MagMass.defaultParams
    dragU0 magMassU0 rfl rfl rfl
